import Mathlib

/-!
Shallow embedding of the authorization / credential subsystem of the
compliance-tracking REST backend (src/middleware/auth.js, src/apis/auth-api.js,
src/services/UserService.js, src/models/UserCredential.js).

Conventions of the embedding:
* The relational store is a record of lists (users, credentials, roles);
  `findOne` is `List.find?` in list order, `count` is `List.length` of a filter,
  row `update` replaces the row with the matching primary key.
* Sequelize transactions are explicit state passing: writes build a tentative
  store, `commit` returns it, `rollback` returns the original store.
* bcrypt is modelled as an ideal collision-free salted hash: `bcrypt.hash(p, s)`
  is the pair `(s, p)` and `bcrypt.compare` tests the password component.
* JWTs are records of optional claims plus the signing secret and an
  absolute expiry instant; `jwt.verify(t, secret)` at time `now` checks the
  secret and the expiry.
* JavaScript truthiness of optional string fields (`undefined`, `null`, `""`
  are falsy) is `optTruthy`; `Array.prototype.includes` on heterogeneous
  values is modelled with `JsValue` and strict equality.
-/

namespace ComplianceAuth

/-- JS truthiness of an optional string: `undefined`, `null` and `""` are falsy. -/
def optTruthy : Option String → Bool
  | none => false
  | some s => !s.isEmpty

/-- Idealized bcrypt digest: `bcrypt.hash(pw, salt)` is modelled as the pair of the
salt and the hashed password, treating the hash as collision-free. -/
structure BHash where
  salt : String
  pw : String
deriving Repr, DecidableEq

/-- Model of `bcrypt.compare(plaintext, storedHash)`. -/
def bcryptCompare (plaintext : String) (h : BHash) : Bool :=
  plaintext == h.pw

/-- A row of the Permissions table (only the `code` attribute is loaded by the
guard and by the login flow). -/
structure Permission where
  id : Nat
  code : String
deriving Repr, DecidableEq

/-- A Role row together with its permissions resolved through the
RolePermission join table (the shape `Role.findByPk` with the permissions
include produces). -/
structure Role where
  id : Nat
  name : String
  permissions : List Permission
deriving Repr, DecidableEq

/-- A row of the Users table (the attributes the auth subsystem reads). The
avatar is a hasOne association whose foreign key lives on the UserAvatar
table, so the Users row has no avatarId attribute. -/
structure UserRec where
  id : Nat
  email : String
  firstName : String
  lastName : String
  roleId : Nat
  isActive : Bool
  isDeleted : Bool
deriving Repr, DecidableEq

/-- A row of the UserCredentials table (src/models/UserCredential.js). -/
structure Credential where
  id : Nat
  userId : Nat
  authType : String
  loginName : String
  passwordHash : Option BHash
  passwordSalt : Option String
  lastPasswordChange : Option Nat
  passwordExpired : Bool
  openIdProvider : Option String
  openIdSubject : Option String
  isActive : Bool
  isDeleted : Bool
deriving Repr, DecidableEq

/-- The relational store. `nextUserId` / `nextCredId` model the
auto-increment sequences. -/
structure Store where
  users : List UserRec
  credentials : List Credential
  roles : List Role
  nextUserId : Nat
  nextCredId : Nat
deriving Repr, DecidableEq

/-- A JWT payload: each claim is present (`some`) or absent (`none`).
The `avatarId` field is kept so that the absence of that claim is statable:
no issuer in this code ever produces it, because `user.avatarId` reads a
non-existent attribute (undefined) and JSON serialization in `jwt.sign`
drops undefined properties. -/
structure JwtPayload where
  userId : Option Nat := none
  email : Option String := none
  loginName : Option String := none
  authType : Option String := none
  roleId : Option Nat := none
  avatarId : Option (Option Nat) := none
  credentialId : Option Nat := none
deriving Repr, DecidableEq

/-- A signed JWT: payload, the secret it was signed with, and the absolute
expiry instant (issue time + expiresIn). -/
structure Token where
  payload : JwtPayload
  signedWith : String
  exp : Nat
deriving Repr, DecidableEq

/-- The two verification failures of the jsonwebtoken library. -/
inductive JwtError where
  | invalidToken
  | expiredToken
deriving Repr, DecidableEq

/-- Model of `jwt.verify(token, secret)` at instant `now`: signature first, then expiry. -/
def jwtVerify (t : Token) (secret : String) (now : Nat) : Except JwtError JwtPayload :=
  if t.signedWith != secret then .error .invalidToken
  else if t.exp ≤ now then .error .expiredToken
  else .ok t.payload

/-- The `generateToken(user, credential)` of src/apis/auth-api.js (used by the
login and OpenID flows). The source also writes `avatarId: user.avatarId`,
but the Users row has no avatarId attribute: the value is undefined and
`jwt.sign` drops the property, so the signed token carries no avatarId
claim. -/
def generateToken (user : UserRec) (credential : Credential)
    (secret : String) (now expiresIn : Nat) : Token :=
  { payload := { userId := some user.id, email := some user.email,
                 loginName := some credential.loginName,
                 authType := some credential.authType,
                 roleId := some user.roleId },
    signedWith := secret, exp := now + expiresIn }

/-- The `generateToken(user, credential)` of src/services/UserService.js (used by
the registration flow): only userId, roleId and credentialId. -/
def serviceGenerateToken (user : UserRec) (credential : Credential)
    (secret : String) (now expiresIn : Nat) : Token :=
  { payload := { userId := some user.id, roleId := some user.roleId,
                 credentialId := some credential.id },
    signedWith := secret, exp := now + expiresIn }

/-- The reset token minted by POST /reset-password-request:
`jwt.sign({userId, email}, secret, {expiresIn: 1h})`. -/
def resetToken (user : UserRec) (secret : String) (now : Nat) : Token :=
  { payload := { userId := some user.id, email := some user.email },
    signedWith := secret, exp := now + 3600 }

/-- The `beforeValidate` hook of the UserCredential model: password credentials
need a password hash and no (truthy) OpenID provider; OpenID credentials need a
(truthy) provider and no password hash. The hook does not inspect
`openIdSubject`. -/
def validateCredential (c : Credential) : Except String Unit :=
  if c.authType == "password" then
    if c.passwordHash.isNone || optTruthy c.openIdProvider then
      .error "Password auth type requires password hash and no OpenID provider"
    else .ok ()
  else if c.authType == "openid" then
    if !optTruthy c.openIdProvider || c.passwordHash.isSome then
      .error "OpenID auth type requires provider and no password hash"
    else .ok ()
  else .ok ()

/-- The unique constraints of the UserCredentials table: (LoginName, AuthType),
and the partial unique index on (OpenIDProvider, OpenIDSubject) restricted to
rows where both are non-null. -/
def violatesUnique (existing : List Credential) (c : Credential) : Bool :=
  existing.any (fun d => d.loginName == c.loginName && d.authType == c.authType)
  || (c.openIdProvider.isSome && c.openIdSubject.isSome &&
      existing.any (fun d =>
        d.openIdProvider == c.openIdProvider && d.openIdSubject == c.openIdSubject))

/-- Model of `UserCredential.create`: runs the beforeValidate hook, then the store-level
unique constraints, then appends the row and advances the id sequence. -/
def credentialCreate (s : Store) (c : Credential) : Except String Store :=
  match validateCredential c with
  | .error e => .error e
  | .ok _ =>
    if violatesUnique s.credentials c then .error "unique constraint violation"
    else .ok { s with credentials := s.credentials ++ [c], nextCredId := s.nextCredId + 1 }

/-- Model of `credential.update(...)`: validation hooks run on the merged row, then the
row with the matching primary key is replaced. -/
def credentialUpdate (s : Store) (c' : Credential) : Except String Store :=
  match validateCredential c' with
  | .error e => .error e
  | .ok _ =>
    .ok { s with credentials := s.credentials.map (fun d => if d.id == c'.id then c' else d) }

/-- Model of `user.update(...)`: replaces the user row with the matching primary key. -/
def userReplace (s : Store) (u' : UserRec) : Store :=
  { s with users := s.users.map (fun v => if v.id == u'.id then u' else v) }

/-- The request context the auth guard attaches on success: the decoded token
(`req.user`), the reloaded user row (`req.userRecord`), its role with
permissions (`req.userRecord.role`), and the flattened permission-code list
(`req.permissions`). -/
structure GuardCtx where
  decoded : JwtPayload
  userRecord : UserRec
  userRole : Option Role
  permissions : List String
deriving Repr, DecidableEq

/-- Outcome of a middleware: short-circuit with a status and message, or pass
the enriched context on. -/
inductive GuardResult where
  | reject (status : Nat) (message : String)
  | allow (ctx : GuardCtx)
deriving Repr, DecidableEq

/-- The `User.findOne` of the auth guard: by id, active and not deleted, with
the role (and its permissions) included via a left join. -/
def guardFindUser (s : Store) (uid : Nat) : Option (UserRec × Option Role) :=
  (s.users.find? (fun u => u.id == uid && u.isActive && !u.isDeleted)).map
    (fun u => (u, s.roles.find? (fun r => r.id == u.roleId)))

/-- Lines 104-107 of src/middleware/auth.js: flatten the role's permission rows
to their codes; an absent role yields the empty list. -/
def permsOfRole : Option Role → List String
  | some r => r.permissions.map (fun p => p.code)
  | none => []

/-- The `authGuard` of src/middleware/auth.js. A token whose payload lacks
`userId` makes the user lookup match no row, so it is rejected with the
user-not-found 403 before the userId-fallback lines can fire. -/
def authGuard (s : Store) (secret : String) (now : Nat) (bearer : Option Token) : GuardResult :=
  match bearer with
  | none => .reject 401 "Authentication token required"
  | some t =>
    match jwtVerify t secret now with
    | .error .invalidToken => .reject 403 "Invalid token"
    | .error .expiredToken => .reject 403 "Token expired"
    | .ok decoded =>
      match decoded.userId.bind (fun uid => guardFindUser s uid) with
      | none => .reject 403 "User not found or inactive"
      | some (u, r?) =>
        .allow { decoded := decoded, userRecord := u, userRole := r?,
                 permissions := permsOfRole r? }

/-- A JavaScript runtime value as far as `Array.prototype.includes` is
concerned here: a string, or a (Sequelize row) object identified by reference.
Strict SameValueZero equality never equates an object with a string. -/
inductive JsValue where
  | str : String → JsValue
  | obj : Nat → JsValue
deriving Repr, DecidableEq

/-- Outcome of a gate middleware. -/
inductive GateResult where
  | reject (status : Nat) (message : String)
  | next
deriving Repr, DecidableEq

/-- The `requirePermissions(...codes)` of src/middleware/auth.js: it reads
`req.userRecord.role.permissions` — the array of Permission row objects, not
the flattened `req.permissions` code list — and asks whether that array
`includes` each required code string. -/
def requirePermissions (required : List String) (ctx? : Option GuardCtx) : GateResult :=
  match ctx? with
  | none => .reject 401 "Authentication required with full user record"
  | some ctx =>
    match ctx.userRole with
    | none => .reject 401 "Authentication required with full user record"
    | some role =>
      let userPermissions : List JsValue := role.permissions.map (fun p => JsValue.obj p.id)
      if required.all (fun code => userPermissions.contains (JsValue.str code)) then
        .next
      else
        .reject 403 "You do not have the required permissions to access this resource"

/-- Response of the login endpoint: status, message, and the issued token if
any (the user-summary part of the 200 body is not needed by any claim). -/
inductive LoginResp where
  | resp (status : Nat) (message : String) (token : Option Token)
deriving Repr, DecidableEq

/-- The credential side of the login `findOne` where clause. -/
def loginCredMatch (c : Credential) (loginName : String) : Bool :=
  c.loginName == loginName && c.authType == "password" && c.isActive && !c.isDeleted

/-- The user side of the login include (a required include: inner join). -/
def loginUserMatch (u : UserRec) (c : Credential) : Bool :=
  u.id == c.userId && u.isActive && !u.isDeleted

/-- The `UserCredential.findOne` of POST /login: first credential matching the
where clause that also has a matching (active, non-deleted) user row, paired
with that user row. -/
def findLoginCredential (s : Store) (loginName : String) : Option (Credential × UserRec) :=
  match s.credentials.find?
      (fun c => loginCredMatch c loginName && s.users.any (fun u => loginUserMatch u c)) with
  | none => none
  | some c => (s.users.find? (fun u => loginUserMatch u c)).map (fun u => (c, u))

/-- POST /api/auth/login (src/apis/auth-api.js lines 238-326). -/
def login (s : Store) (secret : String) (now expiresIn : Nat)
    (loginName? password? : Option String) : LoginResp :=
  if !optTruthy loginName? || !optTruthy password? then
    .resp 400 "Login name and password are required" none
  else
    let loginName := loginName?.getD ""
    let password := password?.getD ""
    match findLoginCredential s loginName with
    | none => .resp 401 "Invalid login credentials" none
    | some (c, u) =>
      if c.passwordExpired then
        .resp 401 "Password has expired. Please reset your password." none
      else
        match c.passwordHash with
        | none => .resp 500 "Login failed" none
        | some h =>
          if !bcryptCompare password h then
            .resp 401 "Invalid login credentials" none
          else
            .resp 200 "Login successful" (some (generateToken u c secret now expiresIn))

/-- Result of `UserService.registerUser`. -/
inductive RegResult where
  | ok (token : Token) (userId : Nat)
  | err (message : String)
deriving Repr, DecidableEq

/-- Model of `roleId || 1`: JS falsy defaulting of the optional numeric role id. -/
def natFalsyDefault (n? : Option Nat) (d : Nat) : Nat :=
  match n? with
  | none => d
  | some n => if n == 0 then d else n

/-- The `UserService.registerUser` of src/services/UserService.js lines 12-88.
All writes happen on the transaction store `tx`; the loginName-conflict branch
and the failed-create branch roll back by returning the original store `s`. -/
def registerUser (s : Store) (secret : String) (now expiresIn : Nat)
    (email password firstName lastName loginName : String) (roleId? : Option Nat)
    (freshSalt : String) : Store × RegResult :=
  let newUser : UserRec :=
    { id := s.nextUserId, email := email, firstName := firstName, lastName := lastName,
      roleId := natFalsyDefault roleId? 1, isActive := true, isDeleted := false }
  let step := match s.users.find? (fun u => u.email == email) with
    | some u => (u, s)
    | none => (newUser, { s with users := s.users ++ [newUser], nextUserId := s.nextUserId + 1 })
  let user := step.1
  let tx := step.2
  match tx.credentials.find? (fun c => c.loginName == loginName && c.authType == "password") with
  | some _ => (s, .err "Login name already in use")
  | none =>
    let c : Credential :=
      { id := tx.nextCredId, userId := user.id, authType := "password",
        loginName := loginName, passwordHash := some ⟨freshSalt, password⟩,
        passwordSalt := some freshSalt, lastPasswordChange := some now,
        passwordExpired := false, openIdProvider := none, openIdSubject := none,
        isActive := true, isDeleted := false }
    match credentialCreate tx c with
    | .error e => (s, .err e)
    | .ok txc => (txc, .ok (serviceGenerateToken user c secret now expiresIn) user.id)

/-- Outcome of POST /api/auth/openid. The 200 body does not expose the
credential row, but the embedding returns it (and the user row and token) so
the find-or-create semantics can be stated. -/
inductive OpenIdResult where
  | badRequest
  | ok (credential : Credential) (user : UserRec) (token : Token)
  | serverError
deriving Repr, DecidableEq

/-- The `credential.id` of a successful OpenID outcome. -/
def OpenIdResult.credId : OpenIdResult → Option Nat
  | .ok c _ _ => some c.id
  | _ => none

/-- The `UserCredential.findOne` of POST /openid: by (provider, subject), active
and not deleted. Null columns never equal a bound string. -/
def findOpenIdCred (s : Store) (provider subject : String) : Option Credential :=
  s.credentials.find? (fun c =>
    c.openIdProvider == some provider && c.openIdSubject == some subject
      && c.isActive && !c.isDeleted)

/-- Model of `firstName || user.firstName`: JS falsy fallback of an update field. -/
def strFalsyFallback (v? : Option String) (old : String) : String :=
  match v? with
  | none => old
  | some v => if v.isEmpty then old else v

/-- The merged user row written by `user.update` in the found branch of
POST /openid: each name field falls back to the stored value when the body
field is falsy. -/
def openidUserUpdate (user : UserRec) (firstName? lastName? : Option String) : UserRec :=
  { user with firstName := strFalsyFallback firstName? user.firstName,
              lastName := strFalsyFallback lastName? user.lastName }

/-- The found branch of POST /openid: reload the credential owner (a missing
row makes `user.update` / `generateToken` throw into the catch-all 500 with
rollback), update the name fields when given, and issue a session token for
the existing credential. -/
def openidFound (s : Store) (secret : String) (now expiresIn : Nat)
    (credential : Credential) (firstName? lastName? : Option String) :
    Store × OpenIdResult :=
  match s.users.find? (fun u => u.id == credential.userId) with
  | none => (s, .serverError)
  | some user =>
    if optTruthy firstName? || optTruthy lastName? then
      (userReplace s (openidUserUpdate user firstName? lastName?),
       .ok credential (openidUserUpdate user firstName? lastName?)
         (generateToken (openidUserUpdate user firstName? lastName?) credential
           secret now expiresIn))
    else
      (s, .ok credential user (generateToken user credential secret now expiresIn))

/-- The user row created by POST /openid when no user holds the email. -/
def openidNewUser (s : Store) (email : String) (firstName? lastName? : Option String) : UserRec :=
  { id := s.nextUserId, email := email, firstName := firstName?.getD "",
    lastName := lastName?.getD "", roleId := 1,
    isActive := true, isDeleted := false }

/-- The OpenID credential row created by POST /openid, bound to `user`. -/
def openidNewCred (tx : Store) (user : UserRec) (provider subject loginName : String) :
    Credential :=
  { id := tx.nextCredId, userId := user.id, authType := "openid",
    loginName := loginName, passwordHash := none, passwordSalt := none,
    lastPasswordChange := none, passwordExpired := false,
    openIdProvider := some provider, openIdSubject := some subject,
    isActive := true, isDeleted := false }

/-- The create half of POST /openid: `s` is the pre-transaction store (the
rollback target), `tx` the transaction store holding the possibly
just-created user. -/
def openidCreate (s tx : Store) (user : UserRec) (secret : String) (now expiresIn : Nat)
    (provider subject loginName : String) : Store × OpenIdResult :=
  match credentialCreate tx (openidNewCred tx user provider subject loginName) with
  | .error _ => (s, .serverError)
  | .ok txc =>
    (txc, .ok (openidNewCred tx user provider subject loginName) user
      (generateToken user (openidNewCred tx user provider subject loginName)
        secret now expiresIn))

/-- POST /api/auth/openid (src/apis/auth-api.js lines 437-552): validate the
body, then find the credential bound to (provider, subject); if found, reuse
it (updating the user name fields), else find-or-create the user by email and
create the credential — all inside one transaction. -/
def openid (s : Store) (secret : String) (now expiresIn : Nat)
    (provider? subject? email? loginName? firstName? lastName? : Option String) :
    Store × OpenIdResult :=
  if !optTruthy provider? || !optTruthy subject? || !optTruthy email? || !optTruthy loginName? then
    (s, .badRequest)
  else
    let provider := provider?.getD ""
    let subject := subject?.getD ""
    let email := email?.getD ""
    let loginName := loginName?.getD ""
    match findOpenIdCred s provider subject with
    | some credential => openidFound s secret now expiresIn credential firstName? lastName?
    | none =>
      match s.users.find? (fun u => u.email == email) with
      | some u => openidCreate s s u secret now expiresIn provider subject loginName
      | none =>
        openidCreate s
          { s with users := s.users ++ [openidNewUser s email firstName? lastName?],
                   nextUserId := s.nextUserId + 1 }
          (openidNewUser s email firstName? lastName?) secret now expiresIn
          provider subject loginName

/-- A plain status/message response (change-password and credential-deletion
endpoints). -/
inductive ApiResp where
  | resp (status : Nat) (message : String)
deriving Repr, DecidableEq

/-- The `UserCredential.findOne` of POST /change-password: the active,
non-deleted password credential of the token's userId. There is no User
include: the user row is never reloaded. -/
def findPasswordCredential (creds : List Credential) (uid? : Option Nat) : Option Credential :=
  match uid? with
  | none => none
  | some uid =>
    creds.find? (fun c => c.userId == uid && c.authType == "password"
      && c.isActive && !c.isDeleted)

/-- POST /api/auth/change-password (src/apis/auth-api.js lines 597-648),
including its `authenticateToken` middleware (signature check only). -/
def changePassword (s : Store) (secret : String) (now : Nat) (bearer : Option Token)
    (currentPassword? newPassword? : Option String) (freshSalt : String) : Store × ApiResp :=
  match bearer with
  | none => (s, .resp 401 "Authentication token required")
  | some t =>
    match jwtVerify t secret now with
    | .error _ => (s, .resp 403 "Invalid or expired token")
    | .ok decoded =>
      if !optTruthy currentPassword? || !optTruthy newPassword? then
        (s, .resp 400 "Current password and new password are required")
      else
        let currentPassword := currentPassword?.getD ""
        let newPassword := newPassword?.getD ""
        if newPassword.length < 8 then
          (s, .resp 400 "Password must be at least 8 characters long")
        else
          match findPasswordCredential s.credentials decoded.userId with
          | none => (s, .resp 400 "No password credential found for this user")
          | some c =>
            match c.passwordHash with
            | none => (s, .resp 500 "Password change failed")
            | some h =>
              if !bcryptCompare currentPassword h then
                (s, .resp 400 "Current password is incorrect")
              else
                let c' := { c with passwordHash := some ⟨freshSalt, newPassword⟩,
                                   passwordSalt := some freshSalt,
                                   lastPasswordChange := some now,
                                   passwordExpired := false }
                match credentialUpdate s c' with
                | .error _ => (s, .resp 500 "Password change failed")
                | .ok s' => (s', .resp 200 "Password changed successfully")

/-- The `UserCredential.findOne` of DELETE /credentials/:id — scoped to the
authenticated user's id. -/
def delFindCredential (s : Store) (credId uid : Nat) : Option Credential :=
  s.credentials.find? (fun c => c.id == credId && c.userId == uid
    && c.isActive && !c.isDeleted)

/-- The `UserCredential.count` of DELETE /credentials/:id: the requester's
active, non-deleted credentials. -/
def activeCredCount (s : Store) (uid : Nat) : Nat :=
  (s.credentials.filter (fun c => c.userId == uid && c.isActive && !c.isDeleted)).length

/-- DELETE /api/auth/credentials/:id (src/apis/auth-api.js lines 942-984),
after its `authenticateToken` middleware; `uid` is the token's userId. -/
def deleteCredential (s : Store) (uid credId : Nat) : Store × ApiResp :=
  match delFindCredential s credId uid with
  | none => (s, .resp 404 "Credential not found")
  | some c =>
    if activeCredCount s uid ≤ 1 then
      (s, .resp 400 "Cannot delete the only credential for this user")
    else
      match credentialUpdate s { c with isActive := false, isDeleted := true } with
      | .error _ => (s, .resp 500 "Failed to delete credential")
      | .ok s' => (s', .resp 200 "Credential deleted successfully")


/-! Concrete fixtures used to instantiate the theorems. -/

/-- A permission row. -/
def permManage : Permission := ⟨1, "MANAGE_ROLES"⟩

/-- A role holding `permManage`. -/
def roleAdmin : Role := ⟨1, "Admin", [permManage]⟩

/-- An active user with role 1. -/
def userAlice : UserRec := ⟨1, "alice@example.com", "Alice", "A", 1, true, false⟩

/-- An active password credential of `userAlice`. -/
def credAlice : Credential :=
  ⟨1, 1, "password", "alice", some ⟨"s1", "pw12345678"⟩, some "s1", none, false,
   none, none, true, false⟩

/-- A store with one active user holding one active password credential. -/
def baseStore : Store := ⟨[userAlice], [credAlice], [roleAdmin], 2, 2⟩

/-- A store with no users and no credentials. -/
def emptyStore : Store := ⟨[], [], [roleAdmin], 1, 1⟩

/-- A session token for `userAlice` signed with the process secret. -/
def tokenAlice : Token := generateToken userAlice credAlice "secret" 0 3600

/-- The request context the guard attaches for `userAlice` in `baseStore`. -/
def ctxAlice : GuardCtx := ⟨tokenAlice.payload, userAlice, some roleAdmin, ["MANAGE_ROLES"]⟩

/-- General guard lemma: a token that verifies, carries a userId claim, and
whose user lookup (with role) succeeds is allowed with exactly the looked-up
record and the flattened permission codes attached. -/
theorem authGuard_allow_of (s : Store) (secret : String) (now : Nat) (tok : Token)
    (uid : Nat) (p : UserRec × Option Role)
    (hv : jwtVerify tok secret now = .ok tok.payload)
    (hu : tok.payload.userId = some uid)
    (hf : guardFindUser s uid = some p) :
    authGuard s secret now (some tok) = .allow ⟨tok.payload, p.1, p.2, permsOfRole p.2⟩ := by
  obtain ⟨u1, r1⟩ := p
  simp only [authGuard, hv, hu, Option.bind_eq_bind, Option.some_bind, hf]

/-- C1: for every request past the Auth Guard, `requirePermissions(codes)` is
claimed to allow exactly when every required code is in the live permission
list the guard attached. The code instead asks whether the array of Permission
row objects `includes` the code string, which is never true, so a request
whose attached permission list contains the required code is still rejected
with 403: evaluated here at a user whose role holds MANAGE_ROLES. -/
theorem requirePermissions_rejects_attached_code :
    authGuard baseStore "secret" 10 (some tokenAlice) = GuardResult.allow ctxAlice ∧
    ctxAlice.permissions = ["MANAGE_ROLES"] ∧
    requirePermissions ["MANAGE_ROLES"] (some ctxAlice) =
      GateResult.reject 403 "You do not have the required permissions to access this resource" :=
  ⟨rfl, rfl, rfl⟩

/-- The reset token for `userAlice`. -/
def resetAlice : Token := resetToken userAlice "secret" 0

/-- C2 counterexample: a password-reset token (claims {userId, email} only),
presented as the session bearer token of an active user, is accepted by the
Auth Guard, contradicting the claim that a reset token is never accepted as a
session token. -/
theorem guard_accepts_reset_token :
    resetAlice.payload = { userId := some 1, email := some "alice@example.com" } ∧
    authGuard baseStore "secret" 10 (some resetAlice) =
      GuardResult.allow ⟨resetAlice.payload, userAlice, some roleAdmin, ["MANAGE_ROLES"]⟩ :=
  ⟨rfl, rfl⟩

/-- C2 amended: the Auth Guard accepts a reset token as a session token
whenever its signature verifies against the process secret, it is unexpired,
and its userId claim resolves to an active, non-deleted user; the guard
performs no claim-shape check. -/
theorem guard_accepts_reset_token_of_active_user
    (s : Store) (secret : String) (now issuedAt : Nat) (u : UserRec)
    (p : UserRec × Option Role)
    (hfresh : now < issuedAt + 3600)
    (huser : guardFindUser s u.id = some p) :
    authGuard s secret now (some (resetToken u secret issuedAt)) =
      GuardResult.allow ⟨(resetToken u secret issuedAt).payload, p.1, p.2, permsOfRole p.2⟩ := by
  apply authGuard_allow_of s secret now _ u.id p _ rfl huser
  unfold jwtVerify resetToken
  rw [if_neg (by simp), if_neg (by simpa using by omega)]

/-- C2 witness for `guard_accepts_reset_token_of_active_user` at a concrete
active user. -/
theorem guard_accepts_reset_token_of_active_user_witness :
    authGuard baseStore "secret" 10 (some (resetToken userAlice "secret" 0)) =
      GuardResult.allow ⟨(resetToken userAlice "secret" 0).payload, userAlice,
        some roleAdmin, permsOfRole (some roleAdmin)⟩ :=
  guard_accepts_reset_token_of_active_user baseStore "secret" 10 0 userAlice
    (userAlice, some roleAdmin) (by omega) rfl

/-- C3 counterexample: a session token issued by successful registration is
produced by UserService.generateToken and carries {userId, roleId,
credentialId}; in particular its email claim is absent, so it does not carry
the fixed claim set {userId, email, loginName, authType, roleId, avatarId}.
Moreover even the login/OpenID issuer emits no avatarId claim: user.avatarId
is undefined (the Users row has no such attribute) and jwt.sign drops it. -/
theorem register_token_not_fixed_claim_set :
    (registerUser emptyStore "secret" 0 3600 "new@example.com" "pw12345678"
        "N" "U" "newuser" none "s2").2 =
      RegResult.ok ⟨⟨some 1, none, none, none, some 1, none, some 1⟩, "secret", 3600⟩ 1 ∧
    (⟨some 1, none, none, none, some 1, none, some 1⟩ : JwtPayload).email = none ∧
    (generateToken userAlice credAlice "secret" 0 3600).payload.avatarId = none :=
  ⟨rfl, rfl, rfl⟩

/-- C3 amended: tokens issued by the login and OpenID flows
(auth-api generateToken) carry exactly {userId, email, loginName, authType,
roleId} — the written avatarId property reads a non-existent user attribute
and is dropped by jwt.sign, so no avatarId claim is present — with userId,
email, roleId from the user and loginName, authType from the credential;
tokens issued by the registration flow (UserService.generateToken) carry
exactly {userId, roleId, credentialId}. -/
theorem token_issuers_claim_sets (u : UserRec) (c : Credential)
    (secret : String) (now e : Nat) :
    (generateToken u c secret now e).payload =
      ⟨some u.id, some u.email, some c.loginName, some c.authType,
       some u.roleId, none, none⟩ ∧
    (serviceGenerateToken u c secret now e).payload =
      ⟨some u.id, none, none, none, some u.roleId, none, some c.id⟩ :=
  ⟨rfl, rfl⟩

/-- An OpenID credential whose openIdSubject is null: the beforeValidate hook
accepts it. -/
def credNoSubject : Credential :=
  ⟨1, 1, "openid", "alice.oid", none, none, none, false, some "google", none, true, false⟩

/-- C5 counterexample: the beforeValidate hook accepts — and the store
persists — an OpenID credential whose openIdSubject is null, so the claimed
invariant conjunct "openIdSubject present" is not enforced before
persistence. -/
theorem openid_hook_ignores_subject :
    validateCredential credNoSubject = Except.ok () ∧
    credNoSubject.openIdSubject = none ∧
    credentialCreate emptyStore credNoSubject =
      Except.ok ⟨[], [credNoSubject], [roleAdmin], 1, 2⟩ :=
  ⟨rfl, rfl, rfl⟩

/-- C5 amended: the beforeValidate hook enforces, on every create or update:
authType = password implies a password hash is present and the OpenID provider
is not (truthy-)present, and authType = openid implies the provider is present
and the password hash is null; the presence of openIdSubject is not checked. -/
theorem validateCredential_enforces_exclusivity (c : Credential)
    (h : validateCredential c = Except.ok ()) :
    (c.authType = "password" →
      c.passwordHash.isSome = true ∧ optTruthy c.openIdProvider = false) ∧
    (c.authType = "openid" →
      optTruthy c.openIdProvider = true ∧ c.passwordHash = none) := by
  unfold validateCredential at h
  constructor
  · intro hp
    rw [hp] at h
    rw [if_pos (show (("password" : String) == "password") = true from rfl)] at h
    by_cases hb : (c.passwordHash.isNone || optTruthy c.openIdProvider) = true
    · rw [if_pos hb] at h
      exact absurd h (by simp)
    · have hb2 : c.passwordHash.isNone = false ∧ optTruthy c.openIdProvider = false := by
        revert hb
        cases c.passwordHash.isNone <;> cases optTruthy c.openIdProvider <;> simp
      refine ⟨?_, hb2.2⟩
      cases hps : c.passwordHash with
      | none => rw [hps] at hb2; exact absurd hb2.1 (by simp)
      | some v => simp
  · intro hp
    rw [hp] at h
    rw [if_neg (show ¬(("openid" : String) == "password") = true by decide)] at h
    rw [if_pos (show (("openid" : String) == "openid") = true from rfl)] at h
    by_cases hb : (!optTruthy c.openIdProvider || c.passwordHash.isSome) = true
    · rw [if_pos hb] at h
      exact absurd h (by simp)
    · have hb2 : optTruthy c.openIdProvider = true ∧ c.passwordHash.isSome = false := by
        revert hb
        cases optTruthy c.openIdProvider <;> cases c.passwordHash.isSome <;> simp
      refine ⟨hb2.1, ?_⟩
      cases hps : c.passwordHash with
      | none => rfl
      | some v => rw [hps] at hb2; exact absurd hb2.2 (by simp)

/-- C5 witness for `validateCredential_enforces_exclusivity` at a concrete
password credential. -/
theorem validateCredential_enforces_exclusivity_witness :
    credAlice.passwordHash.isSome = true ∧ optTruthy credAlice.openIdProvider = false :=
  (validateCredential_enforces_exclusivity credAlice rfl).1 rfl

/-- C7: UserService.registerUser is atomic — whenever it reports a failure
(for example a loginName already in use for password auth), the returned store
is exactly the input store: the user row possibly created earlier inside the
transaction is rolled back and no partial User or Credential is observable. -/
theorem registerUser_rolls_back_on_failure (s : Store) (secret : String)
    (now e : Nat) (email pw fn lnm loginName : String) (roleId? : Option Nat)
    (salt msg : String)
    (h : (registerUser s secret now e email pw fn lnm loginName roleId? salt).2 =
      RegResult.err msg) :
    (registerUser s secret now e email pw fn lnm loginName roleId? salt).1 = s := by
  unfold registerUser at h ⊢
  cases hf : s.users.find? (fun u => u.email == email) <;>
    simp only [hf] at h ⊢ <;>
  · split at h
    · rfl
    · split at h
      · rfl
      · exact absurd h (by simp)

/-- C7 witness: registering with a fresh email but a taken loginName creates a
user inside the transaction, then fails and leaves the store unchanged. -/
theorem registerUser_rolls_back_on_failure_witness :
    (registerUser baseStore "secret" 0 3600 "new@example.com" "pw12345678"
        "N" "U" "alice" none "s9").1 = baseStore :=
  registerUser_rolls_back_on_failure baseStore "secret" 0 3600 "new@example.com"
    "pw12345678" "N" "U" "alice" none "s9" "Login name already in use" rfl

/-- The user row joined by the login lookup is the owner of the credential. -/
theorem findLoginCredential_userId (s : Store) (ln : String) (c : Credential) (u : UserRec)
    (h : findLoginCredential s ln = some (c, u)) : u.id = c.userId := by
  unfold findLoginCredential at h
  split at h
  · exact absurd h (by simp)
  · next c0 hfind =>
    cases hu : s.users.find? (fun v => loginUserMatch v c0) with
    | none => rw [hu] at h; exact absurd h (by simp)
    | some v =>
      rw [hu] at h
      have hm := List.find?_some hu
      unfold loginUserMatch at hm
      simp only [Bool.and_eq_true, beq_iff_eq] at hm
      simp only [Option.map_some', Option.some.injEq, Prod.mk.injEq] at h
      obtain ⟨hc, hv⟩ := h
      rw [← hc, ← hv]
      exact hm.1.1

/-- A credential with an expired password, and a store holding it. -/
def credExpired : Credential :=
  ⟨2, 1, "password", "bob", some ⟨"s1", "pw12345678"⟩, some "s1", none, true,
   none, none, true, false⟩

/-- Store for the expired-password counterexample. -/
def storeExpired : Store := ⟨[userAlice], [credExpired], [roleAdmin], 2, 3⟩

/-- C4 counterexample: in the expired-password state, login answers 401 with a
distinct "Password has expired" body, not the generic invalid-credentials
response — the two responses are observably different. -/
theorem login_expired_message_distinct :
    login storeExpired "secret" 0 3600 (some "bob") (some "pw12345678") =
      LoginResp.resp 401 "Password has expired. Please reset your password." none ∧
    login storeExpired "secret" 0 3600 (some "bob") (some "pw12345678") ≠
      LoginResp.resp 401 "Invalid login credentials" none := by
  refine ⟨rfl, ?_⟩
  intro hcontra
  rw [show login storeExpired "secret" 0 3600 (some "bob") (some "pw12345678") =
      LoginResp.resp 401 "Password has expired. Please reset your password." none
    from rfl] at hcontra
  simp at hcontra

/-- C4 amended: when the login lookup finds the active, non-deleted password
credential with a matching active user, login succeeds exactly when the
password matches, and the issued token's userId is the credential owner's id;
a password mismatch or a missing credential yields the generic 401
invalid-credentials response, while the expired-password state yields 401 with
the distinct password-expired message. -/
theorem login_behavior (s : Store) (secret : String) (now e : Nat)
    (ln pw : String) (hln : ln.isEmpty = false) (hpw : pw.isEmpty = false) :
    (findLoginCredential s ln = none →
      login s secret now e (some ln) (some pw) =
        LoginResp.resp 401 "Invalid login credentials" none) ∧
    (∀ c u, findLoginCredential s ln = some (c, u) →
      (c.passwordExpired = true →
        login s secret now e (some ln) (some pw) =
          LoginResp.resp 401 "Password has expired. Please reset your password." none) ∧
      (∀ hh, c.passwordExpired = false → c.passwordHash = some hh →
        (bcryptCompare pw hh = true →
          login s secret now e (some ln) (some pw) =
            LoginResp.resp 200 "Login successful" (some (generateToken u c secret now e)) ∧
          (generateToken u c secret now e).payload.userId = some c.userId) ∧
        (bcryptCompare pw hh = false →
          login s secret now e (some ln) (some pw) =
            LoginResp.resp 401 "Invalid login credentials" none))) := by
  have hbase : ∀ r : LoginResp,
      (match findLoginCredential s ln with
        | none => LoginResp.resp 401 "Invalid login credentials" none
        | some (c, u) =>
          if c.passwordExpired then
            LoginResp.resp 401 "Password has expired. Please reset your password." none
          else
            match c.passwordHash with
            | none => LoginResp.resp 500 "Login failed" none
            | some h =>
              if !bcryptCompare pw h then LoginResp.resp 401 "Invalid login credentials" none
              else LoginResp.resp 200 "Login successful"
                (some (generateToken u c secret now e))) = r →
      login s secret now e (some ln) (some pw) = r := by
    intro r hr
    rw [← hr]
    simp [login, optTruthy, hln, hpw]
  refine ⟨fun hnone => hbase _ (by rw [hnone]), fun c u hfind => ⟨?_, ?_⟩⟩
  · intro hexp
    exact hbase _ (by rw [hfind]; simp [hexp])
  · intro hh hexp hph
    refine ⟨fun hcmp => ⟨hbase _ ?_, ?_⟩, fun hcmp => hbase _ ?_⟩
    · rw [hfind]; simp [hexp, hph, hcmp]
    · exact congrArg some (findLoginCredential_userId s ln c u hfind)
    · rw [hfind]; simp [hexp, hph, hcmp]

/-- C4 witness for `login_behavior`: a concrete successful login whose token
userId is the credential owner's id, via the success branch of the theorem. -/
theorem login_behavior_witness :
    login baseStore "secret" 0 3600 (some "alice") (some "pw12345678") =
      LoginResp.resp 200 "Login successful"
        (some (generateToken userAlice credAlice "secret" 0 3600)) ∧
    (generateToken userAlice credAlice "secret" 0 3600).payload.userId = some 1 :=
  ((login_behavior baseStore "secret" 0 3600 "alice" "pw12345678" rfl rfl).2
    credAlice userAlice rfl).2 ⟨"s1", "pw12345678"⟩ rfl rfl |>.1 rfl

/-- In a list of at least two credentials with pairwise distinct ids, some
element has an id different from any given id. -/
theorem exists_other_id (l : List Credential) (cid : Nat)
    (hlen : 2 ≤ l.length) (hnd : (l.map (fun d => d.id)).Nodup) :
    ∃ d, d ∈ l ∧ d.id ≠ cid := by
  match l, hlen, hnd with
  | a :: b :: rest, _, hnd =>
    have hab : a.id ≠ b.id := by
      intro he
      simp only [List.map_cons, List.nodup_cons] at hnd
      exact hnd.1 (by simp [he])
    by_cases ha : a.id = cid
    · exact ⟨b, by simp, fun hb => hab (ha.trans hb.symm)⟩
    · exact ⟨a, by simp, ha⟩

/-- C6: through the credential-deletion endpoint, deleting the requester's
only active credential fails with the 400 last-credential response and leaves
the store unchanged; deleting one of two or more active credentials succeeds,
flips exactly that credential to inactive and deleted, and leaves at least one
active credential for the requester. -/
theorem deleteCredential_last_credential_guard (s : Store) (uid credId : Nat) (c : Credential)
    (hfind : delFindCredential s credId uid = some c)
    (hnodup : (s.credentials.map (fun d => d.id)).Nodup)
    (hval : validateCredential { c with isActive := false, isDeleted := true } = Except.ok ()) :
    (activeCredCount s uid ≤ 1 →
      deleteCredential s uid credId =
        (s, ApiResp.resp 400 "Cannot delete the only credential for this user")) ∧
    (2 ≤ activeCredCount s uid →
      (deleteCredential s uid credId).2 = ApiResp.resp 200 "Credential deleted successfully" ∧
      (deleteCredential s uid credId).1.credentials =
        s.credentials.map (fun d =>
          if d.id == c.id then { c with isActive := false, isDeleted := true } else d) ∧
      1 ≤ activeCredCount (deleteCredential s uid credId).1 uid) := by
  have hcp := List.find?_some hfind
  have hcmem := List.mem_of_find?_eq_some hfind
  simp only [Bool.and_eq_true, beq_iff_eq, Bool.not_eq_true'] at hcp
  constructor
  · intro hle
    simp only [deleteCredential, hfind]
    rw [if_pos hle]
  · intro h2
    have hred : deleteCredential s uid credId =
        ({ s with credentials := s.credentials.map (fun d =>
              if d.id == c.id then { c with isActive := false, isDeleted := true } else d) },
         ApiResp.resp 200 "Credential deleted successfully") := by
      simp only [deleteCredential, hfind]
      rw [if_neg (by omega)]
      simp only [credentialUpdate, hval]
    have h2' : 2 ≤ (s.credentials.filter
        (fun d => d.userId == uid && d.isActive && !d.isDeleted)).length := h2
    obtain ⟨d, hdl, hdne⟩ := exists_other_id
      (s.credentials.filter (fun d => d.userId == uid && d.isActive && !d.isDeleted)) c.id h2'
      (((List.filter_sublist s.credentials).map (fun d : Credential => d.id)).nodup hnodup)
    have hdmem : d ∈ s.credentials := List.mem_of_mem_filter hdl
    have hdp := List.of_mem_filter hdl
    have hfd : (fun x : Credential =>
        if x.id == c.id then { c with isActive := false, isDeleted := true } else x) d = d := by
      simp only [if_neg (show ¬(d.id == c.id) = true by simpa using hdne)]
    refine ⟨by rw [hred], by rw [hred], ?_⟩
    rw [hred]
    have hdmem2 : d ∈ s.credentials.map (fun x =>
        if x.id == c.id then { c with isActive := false, isDeleted := true } else x) :=
      hfd ▸ List.mem_map_of_mem _ hdmem
    have hdin : d ∈ (s.credentials.map (fun x =>
        if x.id == c.id then { c with isActive := false, isDeleted := true } else x)).filter
          (fun x => x.userId == uid && x.isActive && !x.isDeleted) :=
      List.mem_filter.mpr ⟨hdmem2, hdp⟩
    exact List.length_pos.mpr (List.ne_nil_of_mem hdin)

/-- A second active credential (OpenID) for `userAlice`. -/
def credAliceOpenid : Credential :=
  ⟨2, 1, "openid", "alice.google", none, none, none, false, some "google",
   some "sub-alice", true, false⟩

/-- A store where `userAlice` holds two active credentials. -/
def storeTwoCreds : Store := ⟨[userAlice], [credAlice, credAliceOpenid], [roleAdmin], 2, 3⟩

/-- C6 witness for `deleteCredential_last_credential_guard`: with a single
active credential the deletion fails with 400 and the store is unchanged; with
two active credentials it succeeds and an active credential remains. -/
theorem deleteCredential_last_credential_guard_witness :
    deleteCredential baseStore 1 1 =
      (baseStore, ApiResp.resp 400 "Cannot delete the only credential for this user") ∧
    (deleteCredential storeTwoCreds 1 1).2 = ApiResp.resp 200 "Credential deleted successfully" ∧
    1 ≤ activeCredCount (deleteCredential storeTwoCreds 1 1).1 1 :=
  ⟨(deleteCredential_last_credential_guard baseStore 1 1 credAlice rfl
      (by decide) rfl).1 (by decide),
   ((deleteCredential_last_credential_guard storeTwoCreds 1 1 credAlice rfl
      (by decide) rfl).2 (by decide)).1,
   ((deleteCredential_last_credential_guard storeTwoCreds 1 1 credAlice rfl
      (by decide) rfl).2 (by decide)).2.2⟩

/-- C10: the credential-deletion endpoint only ever touches credentials owned
by the authenticated user: if the requested id belongs to no credential of the
requester, the request yields 404 and the store is unchanged; and on every
call, every credential not owned by the requester is still present afterwards. -/
theorem deleteCredential_scoped_to_owner (s : Store) (uid credId : Nat)
    (hnodup : (s.credentials.map (fun d => d.id)).Nodup) :
    ((∀ c ∈ s.credentials, c.id = credId → c.userId ≠ uid) →
      deleteCredential s uid credId = (s, ApiResp.resp 404 "Credential not found")) ∧
    (∀ d ∈ s.credentials, d.userId ≠ uid →
      d ∈ (deleteCredential s uid credId).1.credentials) := by
  constructor
  · intro hother
    have hnone : delFindCredential s credId uid = none := by
      unfold delFindCredential
      rw [List.find?_eq_none]
      intro x hx
      by_cases hid : x.id = credId
      · have := hother x hx hid
        simp [hid, this]
      · simp [hid]
    simp only [deleteCredential, hnone]
  · intro d hd hdne
    cases hfind : delFindCredential s credId uid with
    | none =>
      simp only [deleteCredential, hfind]
      exact hd
    | some c =>
      have hcp := List.find?_some hfind
      have hcmem := List.mem_of_find?_eq_some hfind
      simp only [Bool.and_eq_true, beq_iff_eq, Bool.not_eq_true'] at hcp
      by_cases hcnt : activeCredCount s uid ≤ 1
      · simp only [deleteCredential, hfind]
        rw [if_pos hcnt]
        exact hd
      · simp only [deleteCredential, hfind]
        rw [if_neg hcnt]
        cases hupd : credentialUpdate s { c with isActive := false, isDeleted := true } with
        | error e =>
          simp only [hupd]
          exact hd
        | ok s' =>
          simp only [hupd]
          have hs' : s' = { s with credentials := s.credentials.map (fun x =>
              if x.id == c.id then { c with isActive := false, isDeleted := true } else x) } := by
            unfold credentialUpdate at hupd
            split at hupd
            · exact absurd hupd (by simp)
            · rw [Except.ok.injEq] at hupd
              exact hupd.symm
          rw [hs']
          have hdc : d.id ≠ c.id := by
            intro he
            have hdceq : d = c := List.inj_on_of_nodup_map hnodup hd hcmem he
            rw [hdceq] at hdne
            exact hdne hcp.1.1.2
          have hfd : (fun x : Credential =>
              if x.id == c.id then { c with isActive := false, isDeleted := true } else x) d = d := by
            simp only [if_neg (show ¬(d.id == c.id) = true by simpa using hdc)]
          exact hfd ▸ List.mem_map_of_mem _ hd

/-- A credential owned by a different user (user 2). -/
def credOther : Credential :=
  ⟨5, 2, "password", "mallory", some ⟨"s5", "pw5"⟩, some "s5", none, false,
   none, none, true, false⟩

/-- Store for the cross-user deletion witness. -/
def storeOther : Store := ⟨[userAlice], [credAlice, credOther], [roleAdmin], 2, 6⟩

/-- C10 witness for `deleteCredential_scoped_to_owner`: user 1 asking to
delete user 2's credential gets 404 with the store unchanged, and the foreign
credential survives every such call. -/
theorem deleteCredential_scoped_to_owner_witness :
    deleteCredential storeOther 1 5 = (storeOther, ApiResp.resp 404 "Credential not found") ∧
    credOther ∈ (deleteCredential storeOther 1 5).1.credentials :=
  ⟨(deleteCredential_scoped_to_owner storeOther 1 5 (by decide)).1 (by decide),
   (deleteCredential_scoped_to_owner storeOther 1 5 (by decide)).2 credOther
     (by decide) (by decide)⟩

/-- C9: the change-password endpoint authenticates by token signature only and
looks up the password credential by the token's userId, checking the
credential's own isActive/isDeleted flags but never the user row: even when
every user row with the token's id is deactivated or soft-deleted, the change
succeeds, the user table is untouched, and the response is the same for any
contents of the user table. -/
theorem changePassword_ignores_user_state (s : Store) (secret : String) (now : Nat)
    (t : Token) (uid : Nat) (cur new salt : String) (c : Credential) (hh : BHash)
    (hsig : t.signedWith = secret) (hexp : now < t.exp)
    (huid : t.payload.userId = some uid)
    (hcur : cur.isEmpty = false) (hnew : new.isEmpty = false)
    (hlen : ¬new.length < 8)
    (hdeact : ∀ v ∈ s.users, v.id = uid → v.isActive = false ∨ v.isDeleted = true)
    (hfind : findPasswordCredential s.credentials (some uid) = some c)
    (hhash : c.passwordHash = some hh)
    (hcmp : bcryptCompare cur hh = true)
    (hval : validateCredential { c with
      passwordHash := some ⟨salt, new⟩,
      passwordSalt := some salt,
      lastPasswordChange := some now,
      passwordExpired := false } = Except.ok ()) :
    (changePassword s secret now (some t) (some cur) (some new) salt).2 =
      ApiResp.resp 200 "Password changed successfully" ∧
    (changePassword s secret now (some t) (some cur) (some new) salt).1.users = s.users ∧
    (∀ us, (changePassword ⟨us, s.credentials, s.roles, s.nextUserId, s.nextCredId⟩
        secret now (some t) (some cur) (some new) salt).2 =
      ApiResp.resp 200 "Password changed successfully") := by
  have hnotdeact := hdeact
  have key : ∀ s2 : Store, s2.credentials = s.credentials →
      (changePassword s2 secret now (some t) (some cur) (some new) salt).2 =
        ApiResp.resp 200 "Password changed successfully" ∧
      (changePassword s2 secret now (some t) (some cur) (some new) salt).1.users = s2.users := by
    intro s2 hc2
    have hv : jwtVerify t secret now = Except.ok t.payload := by
      unfold jwtVerify
      rw [hsig, if_neg (by simp), if_neg (by omega)]
    have hred : changePassword s2 secret now (some t) (some cur) (some new) salt =
        ({ s2 with
           credentials := s2.credentials.map (fun d =>
             if d.id == c.id then
               { c with
                 passwordHash := some ⟨salt, new⟩,
                 passwordSalt := some salt,
                 lastPasswordChange := some now,
                 passwordExpired := false }
             else d) },
         ApiResp.resp 200 "Password changed successfully") := by
      simp [changePassword, hv, huid, optTruthy, hcur, hnew, hc2, hfind, hhash, hcmp,
        hlen, credentialUpdate, hval]
    exact ⟨by rw [hred], by rw [hred]⟩
  exact ⟨(key s rfl).1, (key s rfl).2,
    fun us => (key ⟨us, s.credentials, s.roles, s.nextUserId, s.nextCredId⟩ rfl).1⟩

/-- A deactivated user (isActive = false). -/
def userCarol : UserRec := ⟨3, "carol@example.com", "Carol", "C", 1, false, false⟩

/-- An active password credential of the deactivated `userCarol`. -/
def credCarol : Credential :=
  ⟨3, 3, "password", "carol", some ⟨"s3", "oldpass123"⟩, some "s3", none, false,
   none, none, true, false⟩

/-- Store whose only user is deactivated but holds an active credential. -/
def storeCarol : Store := ⟨[userCarol], [credCarol], [roleAdmin], 4, 4⟩

/-- C9 witness for `changePassword_ignores_user_state`: a deactivated user with
a valid unexpired token still changes their password successfully. -/
theorem changePassword_ignores_user_state_witness :
    (changePassword storeCarol "secret" 10
        (some (generateToken userCarol credCarol "secret" 0 3600))
        (some "oldpass123") (some "newpass123") "s4").2 =
      ApiResp.resp 200 "Password changed successfully" :=
  (changePassword_ignores_user_state storeCarol "secret" 10
    (generateToken userCarol credCarol "secret" 0 3600) 3 "oldpass123" "newpass123" "s4"
    credCarol ⟨"s3", "oldpass123"⟩ rfl (by decide) rfl rfl rfl (by decide)
    (by decide) rfl rfl rfl rfl).1

/-- If some member satisfies the predicate, `find?` returns something. -/
theorem find?_isSome_of_mem {α : Type} (l : List α) (q : α → Bool) (a : α)
    (ha : a ∈ l) (hq : q a = true) : ∃ w, l.find? q = some w :=
  Option.isSome_iff_exists.mp (List.find?_isSome.mpr ⟨a, ha, hq⟩)

/-- The row replacement performed by `user.update` preserves every row's id. -/
theorem replace_preserves_id (u' v : UserRec) :
    (if v.id == u'.id then u' else v).id = v.id := by
  by_cases hv : (v.id == u'.id) = true
  · rw [if_pos hv]
    exact (beq_iff_eq.mp hv).symm
  · rw [if_neg hv]


/-- Anatomy of a successful found-branch: the returned credential is the one
found by (provider, subject), the credential table is untouched, and the owner
lookup on the post-state still succeeds. -/
theorem openidFound_ok (s : Store) (secret : String) (now e : Nat)
    (credential : Credential) (fn? ln2? : Option String)
    (s1 : Store) (c : Credential) (u : UserRec) (t : Token)
    (h : openidFound s secret now e credential fn? ln2? = (s1, .ok c u t)) :
    c = credential ∧ s1.credentials = s.credentials ∧
    ∃ w, s1.users.find? (fun v => v.id == credential.userId) = some w := by
  unfold openidFound at h
  cases hu : s.users.find? (fun v => v.id == credential.userId) with
  | none =>
    rw [hu] at h
    simp at h
  | some user =>
    rw [hu] at h
    simp only [] at h
    by_cases hupd : (optTruthy fn? || optTruthy ln2?) = true
    · rw [if_pos hupd] at h
      simp only [Prod.mk.injEq, OpenIdResult.ok.injEq] at h
      obtain ⟨hs1, hc, hu2, ht⟩ := h
      refine ⟨hc.symm, by rw [← hs1]; rfl, ?_⟩
      rw [← hs1]
      have hq := List.find?_some hu
      exact find?_isSome_of_mem _ _
        ((fun v => if v.id == (openidUserUpdate user fn? ln2?).id then
            openidUserUpdate user fn? ln2? else v) user)
        (List.mem_map_of_mem _ (List.mem_of_find?_eq_some hu))
        (by show ((if user.id == (openidUserUpdate user fn? ln2?).id then
              openidUserUpdate user fn? ln2? else user).id == credential.userId) = true
            rw [replace_preserves_id]
            exact hq)
    · rw [if_neg hupd] at h
      simp only [Prod.mk.injEq, OpenIdResult.ok.injEq] at h
      obtain ⟨hs1, hc, hu2, ht⟩ := h
      exact ⟨hc.symm, by rw [← hs1], by rw [← hs1]; exact ⟨user, hu⟩⟩

/-- When the owner lookup succeeds, the found branch answers with the found
credential's id (whether or not the name fields are updated). -/
theorem openidFound_succeeds (s : Store) (secret : String) (now e : Nat)
    (credential : Credential) (fn? ln2? : Option String)
    (w : UserRec) (hw : s.users.find? (fun v => v.id == credential.userId) = some w) :
    ((openidFound s secret now e credential fn? ln2?).2).credId = some credential.id := by
  unfold openidFound
  rw [hw]
  simp only []
  by_cases hupd : (optTruthy fn? || optTruthy ln2?) = true
  · rw [if_pos hupd]
    rfl
  · rw [if_neg hupd]
    rfl

/-- Anatomy of a successful create-branch: the returned credential is the
fresh OpenID credential, the user table is the transaction's, and the
credential table is the transaction's with the new row appended. -/
theorem openidCreate_ok (s tx : Store) (user : UserRec) (secret : String) (now e : Nat)
    (p sub ln : String) (s1 : Store) (c : Credential) (u : UserRec) (t : Token)
    (h : openidCreate s tx user secret now e p sub ln = (s1, .ok c u t)) :
    c = openidNewCred tx user p sub ln ∧
    s1.users = tx.users ∧
    s1.credentials = tx.credentials ++ [openidNewCred tx user p sub ln] := by
  unfold openidCreate at h
  cases hcr : credentialCreate tx (openidNewCred tx user p sub ln) with
  | error er =>
    rw [hcr] at h
    simp at h
  | ok txc =>
    rw [hcr] at h
    simp only [Prod.mk.injEq, OpenIdResult.ok.injEq] at h
    obtain ⟨hs1, hc, hu2, ht⟩ := h
    have htxc : txc = { tx with
        credentials := tx.credentials ++ [openidNewCred tx user p sub ln],
        nextCredId := tx.nextCredId + 1 } := by
      unfold credentialCreate at hcr
      split at hcr
      · exact absurd hcr (by simp)
      · split at hcr
        · exact absurd hcr (by simp)
        · rw [Except.ok.injEq] at hcr
          exact hcr.symm
    exact ⟨hc.symm, by rw [← hs1, htxc], by rw [← hs1, htxc]⟩

/-- The fresh OpenID credential matches the (provider, subject) where clause. -/
theorem openidNewCred_matches (tx : Store) (user : UserRec) (p sub ln : String) :
    (fun d : Credential => d.openIdProvider == some p && d.openIdSubject == some sub
      && d.isActive && !d.isDeleted) (openidNewCred tx user p sub ln) = true := by
  simp [openidNewCred]

/-- C8: the OpenID find-or-create flow is idempotent — if a call with a given
(provider, subject) pair succeeds, producing credential `c` and post-state
`s1`, then a second call on `s1` with the same body succeeds and yields the
same credential id: it finds the credential bound to the pair instead of
creating a new one. -/
theorem openid_find_or_create_idempotent (s : Store) (secret : String) (now e : Nat)
    (p sub em ln : String) (fn? ln2? : Option String)
    (c : Credential) (u : UserRec) (t : Token) (s1 : Store)
    (h : openid s secret now e (some p) (some sub) (some em) (some ln) fn? ln2? =
      (s1, OpenIdResult.ok c u t)) :
    ((openid s1 secret now e (some p) (some sub) (some em) (some ln) fn? ln2?).2).credId =
      some c.id := by
  by_cases hB : (!optTruthy (some p) || !optTruthy (some sub) || !optTruthy (some em)
      || !optTruthy (some ln)) = true
  · unfold openid at h
    rw [if_pos hB] at h
    simp at h
  · unfold openid at h ⊢
    rw [if_neg hB] at h ⊢
    simp only [Option.getD_some] at h ⊢
    cases hfind : findOpenIdCred s p sub with
    | some cred =>
      rw [hfind] at h
      simp only [] at h
      obtain ⟨hc, hcreds, w, hw⟩ := openidFound_ok s secret now e cred fn? ln2? s1 c u t h
      have hfind1 : findOpenIdCred s1 p sub = some cred := by
        unfold findOpenIdCred at hfind ⊢
        rw [hcreds]
        exact hfind
      rw [hfind1]
      simp only []
      rw [hc]
      exact openidFound_succeeds s1 secret now e cred fn? ln2? w hw
    | none =>
      rw [hfind] at h
      simp only [] at h
      cases hmail : s.users.find? (fun v => v.email == em) with
      | some u0 =>
        rw [hmail] at h
        simp only [] at h
        obtain ⟨hc, husers, hcreds⟩ := openidCreate_ok s s u0 secret now e p sub ln s1 c u t h
        have hfind1 : findOpenIdCred s1 p sub = some (openidNewCred s u0 p sub ln) := by
          unfold findOpenIdCred at hfind ⊢
          rw [hcreds, List.find?_append, hfind, Option.none_or]
          exact List.find?_cons_of_pos _ (openidNewCred_matches s u0 p sub ln)
        rw [hfind1]
        simp only []
        rw [hc]
        obtain ⟨w, hw⟩ := find?_isSome_of_mem s1.users
          (fun v => v.id == (openidNewCred s u0 p sub ln).userId) u0
          (by rw [husers]; exact List.mem_of_find?_eq_some hmail)
          (by simp [openidNewCred])
        exact openidFound_succeeds s1 secret now e (openidNewCred s u0 p sub ln) fn? ln2? w hw
      | none =>
        rw [hmail] at h
        simp only [] at h
        obtain ⟨hc, husers, hcreds⟩ := openidCreate_ok s
          { s with users := s.users ++ [openidNewUser s em fn? ln2?],
                   nextUserId := s.nextUserId + 1 }
          (openidNewUser s em fn? ln2?) secret now e p sub ln s1 c u t h
        have hfind1 : findOpenIdCred s1 p sub = some (openidNewCred
            { s with users := s.users ++ [openidNewUser s em fn? ln2?],
                     nextUserId := s.nextUserId + 1 }
            (openidNewUser s em fn? ln2?) p sub ln) := by
          unfold findOpenIdCred at hfind ⊢
          rw [hcreds, List.find?_append]
          rw [show List.find? (fun d : Credential => d.openIdProvider == some p
              && d.openIdSubject == some sub && d.isActive && !d.isDeleted)
              ({ s with users := s.users ++ [openidNewUser s em fn? ln2?],
                        nextUserId := s.nextUserId + 1 } : Store).credentials = none from hfind]
          rw [Option.none_or]
          exact List.find?_cons_of_pos _ (openidNewCred_matches _ _ p sub ln)
        rw [hfind1]
        simp only []
        rw [hc]
        obtain ⟨w, hw⟩ := find?_isSome_of_mem s1.users
          (fun v => v.id == (openidNewCred
            { s with users := s.users ++ [openidNewUser s em fn? ln2?],
                     nextUserId := s.nextUserId + 1 }
            (openidNewUser s em fn? ln2?) p sub ln).userId)
          (openidNewUser s em fn? ln2?)
          (by rw [husers]; simp)
          (by simp [openidNewCred])
        exact openidFound_succeeds s1 secret now e (openidNewCred
          { s with users := s.users ++ [openidNewUser s em fn? ln2?],
                   nextUserId := s.nextUserId + 1 }
          (openidNewUser s em fn? ln2?) p sub ln) fn? ln2? w hw

/-- The user created by the OpenID witness run. -/
def danaUser : UserRec := ⟨1, "dana@example.com", "", "", 1, true, false⟩

/-- The credential created by the OpenID witness run. -/
def danaCred : Credential :=
  ⟨1, 1, "openid", "dana.g", none, none, none, false, some "google", some "sub-x",
   true, false⟩

/-- The post-state of the OpenID witness run. -/
def danaStore : Store := ⟨[danaUser], [danaCred], [roleAdmin], 2, 2⟩

/-- C8 witness for `openid_find_or_create_idempotent`: a first call that
creates user and credential, then a second call with the same body that finds
the same credential id. -/
theorem openid_find_or_create_idempotent_witness :
    ((openid danaStore "secret" 0 3600 (some "google") (some "sub-x")
        (some "dana@example.com") (some "dana.g") none none).2).credId = some 1 :=
  openid_find_or_create_idempotent emptyStore "secret" 0 3600 "google" "sub-x"
    "dana@example.com" "dana.g" none none danaCred danaUser
    (generateToken danaUser danaCred "secret" 0 3600) danaStore rfl

end ComplianceAuth
